import Mathlib

/-!
Verification of the adversarial bug-fixing orchestrator
(`src/AdversarialBugFixing.py`).

The Python source is shallowly embedded: scoring functions become pure
functions on `String` and `Rat`; the `main` orchestration loop becomes a
state-passing function over an explicit `LoopState`, parameterized by the
behaviour of the pluggable agents (generation, bug checking, fixing,
performance, documentation, refactoring) and the sandbox boundary.
Python exceptions are modelled as an `Outcome.raised` result, early
`return` statements as `Outcome.exited` with the source exit codes.
Python string operations are re-implemented over `List Char` by
structural recursion so every definition evaluates inside the kernel.
-/

namespace ABF

/-! ## Python string primitives, modelled over `List Char` -/

/-- Prefix test on character lists (Python `s.startswith(pat)` at a position). -/
def charsPrefix : List Char → List Char → Bool
  | [], _ => true
  | _ :: _, [] => false
  | p :: ps, c :: cs => p = c && charsPrefix ps cs

/-- Substring test, Python `pat in s`. -/
def charsContains (pat : List Char) : List Char → Bool
  | [] => charsPrefix pat []
  | c :: rest => charsPrefix pat (c :: rest) || charsContains pat rest

/-- Python `pat in s` on strings. -/
def pyContains (s pat : String) : Bool := charsContains pat.data s.data

/-- Number of positions at which `pat` occurs.  For the patterns used by the
source (`"if "`, `"for "`, `"while "`), which cannot overlap themselves, this
equals Python `s.count(pat)` (non-overlapping count). -/
def charsOccurrences (pat : List Char) : List Char → Nat
  | [] => 0
  | c :: rest => (if charsPrefix pat (c :: rest) then 1 else 0) + charsOccurrences pat rest

/-- Python `s.count(pat)` for the non-self-overlapping patterns of the source. -/
def pyCount (s pat : String) : Nat := charsOccurrences pat.data s.data

/-- Split a character list on a separator character; Python `s.split(sep)`
for a one-character separator. -/
def charsSplitOnChar (sep : Char) : List Char → List (List Char)
  | [] => [[]]
  | c :: rest =>
    if c = sep then [] :: charsSplitOnChar sep rest
    else
      match charsSplitOnChar sep rest with
      | [] => [[c]]
      | h :: t => (c :: h) :: t

/-- Python `str.splitlines()` for `"\n"`-separated text (the only line
separator occurring in this program): no entry for a trailing newline,
and the empty string yields no lines. -/
def pySplitlines (s : String) : List String :=
  match s.data with
  | [] => []
  | cs =>
    let parts := charsSplitOnChar '\n' cs
    let parts := if cs.getLast? = some '\n' then parts.dropLast else parts
    parts.map fun l => String.mk l

/-- Python `"\n".join(lines)`. -/
def joinLines (ls : List String) : String :=
  String.mk (List.intercalate ['\n'] (ls.map String.data))

/-- Python `str.strip()`. -/
def pyStrip (s : String) : String :=
  String.mk (((s.data.dropWhile Char.isWhitespace).reverse.dropWhile Char.isWhitespace).reverse)

/-- Python `str.lstrip()`. -/
def pyLstrip (s : String) : String :=
  String.mk (s.data.dropWhile Char.isWhitespace)

/-- Python `s.startswith(pat)`. -/
def pyStartswith (s pat : String) : Bool := charsPrefix pat.data s.data

/-- Replace all non-overlapping occurrences of `pat` left to right,
Python `s.replace(pat, rep)`; the fuel argument is the length of the scanned
text, enough for the scan because each step consumes at least one character. -/
def charsReplaceFuel (pat rep : List Char) : Nat → List Char → List Char
  | 0, s => s
  | _ + 1, [] => []
  | fuel + 1, c :: rest =>
    if pat ≠ [] ∧ charsPrefix pat (c :: rest) then
      rep ++ charsReplaceFuel pat rep fuel ((c :: rest).drop pat.length)
    else
      c :: charsReplaceFuel pat rep fuel rest

/-- Python `s.replace(pat, rep)` (replace all occurrences). -/
def pyReplace (s pat rep : String) : String :=
  String.mk (charsReplaceFuel pat.data rep.data s.data.length s.data)

/-- Python `list.insert(i, x)` on a list of lines. -/
def pyInsert (l : List String) (i : Nat) (x : String) : List String :=
  l.take i ++ [x] ++ l.drop i

/-- Python `list.index(x)` returning `none` instead of raising `ValueError`. -/
def pyIndex (l : List String) (x : String) : Option Nat :=
  l.findIdx? fun y => y = x

/-- Python truthiness of an `Optional[str]`: `None` and `""` are falsy. -/
def pyFalsy : Option String → Bool
  | none => true
  | some s => s = ""

/-! ## Constants and configuration (`DEFAULT_CONFIG`) -/

def EXIT_SUCCESS : Nat := 0
def EXIT_FAILURE : Nat := 1
def EXIT_DOCKER_UNAVAILABLE : Nat := 2

def LLM_ROTATION_FIXED : String := "fixed"
def LLM_ROTATION_RANDOM : String := "random"
def LLM_ROTATION_ROUND_ROBIN : String := "round_robin"

def CODE_QUALITY_INITIAL_SCORE : ℚ := 100

/-- The configuration options of `DEFAULT_CONFIG` that the orchestration loop
and the scoring functions read (parsed to their numeric/boolean forms, as
`main` does with `int(...)`, `float(...)` and `== 'True'`). -/
structure Config where
  iterationLimit : Nat
  featureAdditionRound : Nat
  bugChecksPerIteration : Nat
  llmRotationStrategy : String
  enableRefactoring : Bool
  enablePerformanceCheck : Bool
  enableDocumentationCheck : Bool
  longLinePenalty : ℚ
  missingDocstringPenalty : ℚ
  missingCommentPenalty : ℚ
deriving DecidableEq

/-- The `General` section of `DEFAULT_CONFIG`. -/
def DEFAULT_CONFIG : Config :=
  { iterationLimit := 3
    featureAdditionRound := 2
    bugChecksPerIteration := 2
    llmRotationStrategy := LLM_ROTATION_FIXED
    enableRefactoring := true
    enablePerformanceCheck := true
    enableDocumentationCheck := true
    longLinePenalty := 1 / 2
    missingDocstringPenalty := 2
    missingCommentPenalty := 1 }

/-! ## Scoring module (`calculate_code_quality` and friends) -/

/-- Python `max(a, b)` on rationals. -/
def pyMax (a b : ℚ) : ℚ := if a ≤ b then b else a

/-- Python `min(a, b)` on rationals. -/
def pyMin (a b : ℚ) : ℚ := if a ≤ b then a else b

/-- `calculate_code_quality(code, config)`: start from 100, subtract the
long-line penalty per line over 80 characters, the docstring penalty when the
second line does not start with a docstring, the comment penalty when no line
contains a hash character, and clamp to `[0, 100]`. -/
def calculate_code_quality (code : String) (config : Config) : ℚ :=
  let score := CODE_QUALITY_INITIAL_SCORE
  let lines := pySplitlines code
  let score := lines.foldl
    (fun sc line => if 80 < line.data.length then sc - config.longLinePenalty else sc) score
  let score :=
    if 1 < lines.length ∧ ¬ pyStartswith (pyStrip (lines.getD 1 "")) "\"\"\"" then
      score - config.missingDocstringPenalty
    else score
  let score :=
    if ¬ lines.any (fun line => pyContains line "#") then
      score - config.missingCommentPenalty
    else score
  pyMax 0 (pyMin score CODE_QUALITY_INITIAL_SCORE)

/-- `calculate_cyclomatic_complexity(code)`. -/
def calculate_cyclomatic_complexity (code : String) : ℚ :=
  ((pyCount code "if " + pyCount code "for " + pyCount code "while " : Nat) : ℚ) + 1

/-- `calculate_halstead_volume(code)`. -/
def calculate_halstead_volume (code : String) : ℚ :=
  (code.data.length : ℚ) * 2

/-! ## Rotation policy (`get_next_bug_checker`) -/

/-- `get_next_bug_checker(current_llms, strategy, current_index)`.
`none` models the `ValueError` raised for an empty pool or an unknown
strategy.  `randChoice` supplies the random draw consumed only by the
`random` strategy (`random.choice`). -/
def get_next_bug_checker {α : Type} (current_llms : List α) (strategy : String)
    (current_index : Nat) (randChoice : Nat) : Option (α × Nat) :=
  match current_llms with
  | [] => none
  | l0 :: _ =>
    if strategy = LLM_ROTATION_FIXED then some (l0, 0)
    else if strategy = LLM_ROTATION_RANDOM then
      some (current_llms.getD (randChoice % current_llms.length) l0, 0)
    else if strategy = LLM_ROTATION_ROUND_ROBIN then
      let next_index := (current_index + 1) % current_llms.length
      some (current_llms.getD next_index l0, next_index)
    else none

/-- The result of the `k`-th successive call to `get_next_bug_checker`
(0-indexed), threading the returned cursor exactly as `main` threads
`bug_checker_index`. -/
def selectIter {α : Type} (l : List α) (strategy : String) : Nat → Nat → Option (α × Nat)
  | c, 0 => get_next_bug_checker l strategy c 0
  | c, k + 1 =>
    match get_next_bug_checker l strategy c 0 with
    | some (_, c2) => selectIter l strategy c2 k
    | none => none

/-- The sequence of the first `n` selected agents, starting from cursor `c`. -/
def selections {α : Type} (l : List α) (strategy : String) (c n : Nat) : List (Option α) :=
  (List.range n).map fun k => (selectIter l strategy c k).map Prod.fst

/-! ## `MockLLMFix.fix_bugs`

The per-finding parsing regex
`r"Line (\d+|[?]): (.*?)(?: Severity: (\w+))?$"` is embedded by its
operational semantics: the literal prefix `"Line "`, a maximal digit run or a
question mark, the literal `": "`, then a lazily matched description whose
first position admitting the optional anchored `" Severity: <word>"` suffix
ends it.  `re.search` patterns are embedded as left-to-right scans. -/

/-- Python regex `\w` (ASCII word character, as produced by the mock agents). -/
def isWordChar (c : Char) : Bool := c.isAlpha || c.isDigit || c = '_'

/-- Numeric value of a digit run (`int(line_num_str)`). -/
def natOfDigits (ds : List Char) : Nat :=
  ds.foldl (fun n c => 10 * n + (c.toNat - 48)) 0

/-- Match `(?: Severity: (\w+))$` exactly at this position. -/
def sevAt (cs : List Char) : Option (List Char) :=
  if charsPrefix " Severity: ".data cs then
    let w := cs.drop 11
    if w ≠ [] ∧ w.all isWordChar then some w else none
  else none

/-- Lazy split of the text after `"Line n: "` into the description group and
the optional severity group: the description ends at the first position where
the anchored severity suffix matches, else runs to the end of the line. -/
def descSev : List Char → List Char × Option (List Char)
  | [] => ([], none)
  | c :: rest =>
    match sevAt (c :: rest) with
    | some w => ([], some w)
    | none =>
      let (d, s) := descSev rest
      (c :: d, s)

/-- The line reference captured by group 1: a line number or `?`. -/
inductive LineRef where
  | num (n : Nat)
  | question
deriving DecidableEq

/-- `re.match(r"Line (\d+|[?]): (.*?)(?: Severity: (\w+))?$", bug)`, returning
the line reference, the description and the optional severity tag. -/
def matchBugLine (bug : String) : Option (LineRef × String × Option String) :=
  if charsPrefix "Line ".data bug.data then
    let rest := bug.data.drop 5
    let ds := rest.takeWhile Char.isDigit
    let parse2 : LineRef → List Char → Option (LineRef × String × Option String) :=
      fun ref r1 =>
        match r1 with
        | ':' :: ' ' :: r3 =>
          let (d, s) := descSev r3
          some (ref, String.mk d, s.map fun w => String.mk w)
        | _ => none
    if ds ≠ [] then parse2 (.num (natOfDigits ds)) (rest.dropWhile Char.isDigit)
    else
      match rest with
      | '?' :: r1 => parse2 .question r1
      | _ => none
  else none

/-- Match `Function '(\w+)'` exactly at this position. -/
def funcNameAt (cs : List Char) : Option (List Char) :=
  if charsPrefix "Function \x27".data cs then
    let rest := cs.drop 10
    let w := rest.takeWhile isWordChar
    if w ≠ [] ∧ charsPrefix ['\x27'] (rest.dropWhile isWordChar) then some w else none
  else none

/-- `re.search(r"Function '(\w+)'", description)`: leftmost match. -/
def searchFuncName : List Char → Option (List Char)
  | [] => none
  | c :: rest =>
    match funcNameAt (c :: rest) with
    | some w => some w
    | none => searchFuncName rest

/-- Lazy scan for a closing parenthesis: the group content up to the first
`)`; a newline fails the attempt (the dot does not match newlines). -/
def takeUntilParen : List Char → Option (List Char)
  | [] => none
  | ')' :: _ => some []
  | '\n' :: _ => none
  | c :: rest => (takeUntilParen rest).map fun g => c :: g

/-- `re.search(r'\((.*?)\)', s)`: content of the leftmost parenthesis group. -/
def searchParen : List Char → Option (List Char)
  | [] => none
  | '(' :: rest =>
    (match takeUntilParen rest with
     | some g => some g
     | none => searchParen rest)
  | _ :: rest => searchParen rest

/-- Python exceptions that can escape `MockLLMFix.fix_bugs`. -/
inductive PyErr where
  | stopIteration
  | valueError
deriving DecidableEq

/-- One pass of the `for bug in bugs_list` body of `MockLLMFix.fix_bugs`,
acting on the state `(lines, fixed_code)`; `code` is the original input used
by the substring tests of the `Missing output` branch. -/
def applyBug (code : String) (st : List String × String) (bug : String) :
    Except PyErr (List String × String) :=
  let (lines, fixed_code) := st
  match matchBugLine bug with
  | none => .ok (lines, fixed_code)
  | some (ref, description, _severity) =>
    let line_num : Int :=
      match ref with
      | .num n => if 1 ≤ n ∧ n - 1 < lines.length then (n : Int) - 1 else -1
      | .question => -1
    if pyContains description "Missing docstring" ∧ line_num ≠ -1 then
      let lines := pyInsert lines line_num.toNat "    \"\"\"Generated docstring.\"\"\""
      .ok (lines, joinLines lines)
    else if pyContains description "Inconsistent indentation" ∧ line_num ≠ -1 then
      let lines := lines.set line_num.toNat ("    " ++ pyLstrip (lines.getD line_num.toNat ""))
      .ok (lines, joinLines lines)
    else if pyContains description "Missing output" ∧ line_num ≠ -1 then
      let lines :=
        if pyContains code "add(" then lines ++ ["    print(\x27Result:\x27, add(5, 3))"]
        else if pyContains code "subtract(" then
          lines ++ ["    print(\x27Result:\x27, subtract(10, 3))"]
        else if pyContains code "circle_area(" then
          lines ++ ["    print(\x27Circle Area:\x27, circle_area(7))"]
        else lines ++ ["    print(\x27Output:\x27)"]
      .ok (lines, joinLines lines)
    else if pyContains description "Function" ∧ pyContains description "defined but not called"
        ∧ line_num ≠ -1 then
      match searchFuncName description.data with
      | none => .ok (lines, fixed_code)
      | some fn =>
        -- source line 316 filters with the constant truthy string
        -- `f"def {func_name}("`, so every line is kept
        let func_def := lines.filter fun _ => true
        match func_def with
        | [] => .ok (lines, fixed_code)
        | fd0 :: _ =>
          match searchParen fd0.data with
          | none => .ok (lines, fixed_code)
          | some g =>
            let params := (charsSplitOnChar ',' g).map fun p => pyStrip (String.mk p)
            let zeros := String.intercalate ", " (List.replicate params.length "0")
            let fname := String.mk fn
            let lines := lines ++
              ["    print(\x27" ++ fname ++ " result:\x27, " ++ fname ++ "(" ++ zeros ++ "))"]
            .ok (lines, joinLines lines)
    else if pyContains description "Missing input validation for calculate_area" then
      let validation_code :=
        "\n    if length <= 0 or width <= 0:\n        raise ValueError(\"Length and width must be positive values.\")\n"
      match lines.findIdx? (fun line => pyContains line "def calculate_area") with
      | none => .ok (lines, fixed_code)
      | some idx =>
        let lines := pyInsert lines (idx + 1) validation_code
        .ok (lines, joinLines lines)
    else if pyContains description "Missing input validation for circle_area" then
      let validation_code :=
        "\n    if radius <= 0:\n        raise ValueError(\"Radius must be a positive value.\")\n"
      match lines.findIdx? (fun line => pyContains line "def circle_area") with
      | none => .ok (lines, fixed_code)
      | some idx =>
        let lines := pyInsert lines (idx + 1) validation_code
        .ok (lines, joinLines lines)
    else if pyContains description "FileNotFoundError" then
      let exception_handling :=
        "\n    except FileNotFoundError:\n        return \"Error: File not found.\"\n"
      match lines.findIdx? (fun line => pyContains line "try:") with
      | none => .error .stopIteration
      | some t =>
        match pyIndex (lines.drop (t + 1)) "with open(" with
        | none => .error .valueError
        | some j =>
          let lines := pyInsert lines (t + 1 + j) exception_handling
          .ok (lines, joinLines lines)
    else if pyContains description "Consider type hinting radius" then
      match lines.findIdx? (fun line => pyContains line "def circle_area(radius):") with
      | none => .ok (lines, fixed_code)
      | some i =>
        let lines := lines.set i (pyReplace (lines.getD i "") "radius)" "radius: float)")
        .ok (lines, joinLines lines)
    else .ok (lines, fixed_code)

/-- `MockLLMFix.fix_bugs(code, bug_report)`.  The simulated failure draw
(`random.random() < self.failure_rate`) is the `failureRoll` argument; the
`random.shuffle` of the findings is the `shuffled` argument, constrained in
the theorems to be a permutation of `bug_report.splitlines()`.  `.error`
models an uncaught Python exception. -/
def fix_bugs (code : String) (bug_report : String) (failureRoll : Bool)
    (shuffled : List String) : Except PyErr String :=
  if failureRoll then .ok code
  else
    let fixed_code := code
    let lines := pySplitlines fixed_code
    let _ := bug_report
    (shuffled.foldlM (applyBug code) (lines, fixed_code)).map Prod.snd

/-! ## The orchestration loop (`main`)

`main` is embedded as a deterministic state-passing function parameterized by
the behaviour of its collaborators: each agent capability is a function from
the artifact text to an `Option String` result (Python `Optional[str]`), the
sandbox boundary is an availability flag plus a verdict function, and the
random draw consumed by the `random` rotation strategy is an oracle stream.
Ledger writes and the fix calls are recorded in an event trace. -/

/-- A bug-checking agent: its registered name and its `check_bugs` capability. -/
structure Checker where
  name : String
  check_bugs : String → Option String

/-- The collaborators `main` wires together, with the sandbox boundary and
the randomness oracle for `random.choice`. -/
structure Agents where
  generate : String → Option String
  bug_check_llms : List Checker
  fix_bugs_agent : String → String → Option String
  refactor_agent : String → Option String
  refactorName : String
  check_performance : String → Option String
  performanceName : String
  check_documentation : String → Option String
  documentationName : String
  randStream : Nat → Nat
  dockerAvailable : Bool
  runInDocker : Option String → Bool

/-- Ledger writes and capability invocations recorded during a run. -/
inductive Event where
  | storeCodeVersion (iteration : Nat) (code : String) (qualityScore complexityScore : ℚ)
      (performanceScore documentationScore : Option ℚ)
  | storeComplexityMetrics (iteration : Nat) (cyclomaticComplexity halsteadVolume : ℚ)
  | storeBugReport (iteration : Nat) (report : String) (checkNumber : Nat)
      (llmName : String) (severity : String)
  | fixCall (iteration : Nat) (checkNumber : Nat) (code : String) (report : String)
  | storePerformanceCheck (iteration : Nat) (report : String) (llmName : String)
  | storeDocumentationCheck (iteration : Nat) (report : String) (llmName : String)
  | storeRefactoring (iteration : Nat) (suggestions : String) (llmName : String)
  | logFeatureFailure
  | sandboxRun (code : Option String) (success : Bool)
deriving DecidableEq

/-- How a run ends: a `return` with an exit code, or an uncaught Python
exception (named by its Python class). -/
inductive Outcome where
  | exited (code : Nat)
  | raised (err : String)
deriving DecidableEq

/-- The mutable state of `main`: the `code` variable (an `Optional[str]`),
the rotation cursor `bug_checker_index`, the position in the randomness
stream, the binding state of the Python local `performance_score_val`
(`none` models the unassigned local), and the event trace. -/
structure LoopState where
  code : Option String
  bug_checker_index : Nat
  randCtr : Nat
  performance_score_val : Option ℚ
  trace : List Event
deriving DecidableEq

/-- A control-flow step: `exit = some o` means the function `return`ed or an
exception unwound; `none` means fall through to the next statement. -/
structure StepRes where
  exit : Option Outcome
  st : LoopState
deriving DecidableEq

/-- Run the continuation unless control flow already left `main`. -/
def seqStep (r : StepRes) (f : LoopState → StepRes) : StepRes :=
  match r.exit with
  | some _ => r
  | none => f r.st

/-- The severity classification of lines 712-715 of the source. -/
def parseSeverity (bug_report : String) : String :=
  if pyContains bug_report "Severity: Major" then "Major"
  else if pyContains bug_report "Severity: Minor" then "Minor"
  else if pyContains bug_report "Severity: Info" then "Info"
  else "Unknown"

/-- One detection/fix sub-round (source lines 704-720): select a checker,
run it, and when the report is truthy persist it and call the fixer; a falsy
fixed artifact aborts the run with `EXIT_FAILURE`. -/
def runSubRound (ag : Agents) (cfg : Config) (i checkNum : Nat) (st : LoopState) : StepRes :=
  match get_next_bug_checker ag.bug_check_llms cfg.llmRotationStrategy st.bug_checker_index
      (ag.randStream st.randCtr) with
  | none => { exit := some (.raised "ValueError"), st := st }
  | some (bug_checker, idx) =>
    let st := { st with bug_checker_index := idx, randCtr := st.randCtr + 1 }
    match st.code with
    | none => { exit := some (.raised "AttributeError"), st := st }
    | some code =>
      match bug_checker.check_bugs code with
      | none => { exit := none, st := st }
      | some r =>
        if r = "" then { exit := none, st := st }
        else
          let severity := parseSeverity r
          let st := { st with trace := st.trace ++
            [Event.storeBugReport (i + 1) r (checkNum + 1) bug_checker.name severity,
             Event.fixCall (i + 1) (checkNum + 1) code r] }
          let newCode := ag.fix_bugs_agent code r
          let st := { st with code := newCode }
          if pyFalsy newCode then { exit := some (.exited EXIT_FAILURE), st := st }
          else { exit := none, st := st }

/-- The `for check_num in range(bug_checks_per_iteration)` loop. -/
def runChecks (ag : Agents) (cfg : Config) (i : Nat) : List Nat → LoopState → StepRes
  | [], st => { exit := none, st := st }
  | k :: ks, st => seqStep (runSubRound ag cfg i k st) (runChecks ag cfg i ks)

/-- The performance stage (source lines 722-729): assigns
`performance_score_val` and amends the iteration's version record. -/
def perfStage (ag : Agents) (cfg : Config) (i : Nat) (quality_score complexity_score : ℚ)
    (st : LoopState) : StepRes :=
  if cfg.enablePerformanceCheck then
    match st.code with
    | none => { exit := some (.raised "AttributeError"), st := st }
    | some code =>
      let performance_report := ag.check_performance code
      let performance_score_val : ℚ := if pyFalsy performance_report then 100 else 50
      let storedReport :=
        match performance_report with
        | none => "No performance issues detected."
        | some r => if r = "" then "No performance issues detected." else r
      let st := { st with
        performance_score_val := some performance_score_val,
        trace := st.trace ++
          [Event.storePerformanceCheck (i + 1) storedReport ag.performanceName,
           Event.storeCodeVersion (i + 1) code quality_score complexity_score
             (some performance_score_val) none] }
      { exit := none, st := st }
  else { exit := none, st := st }

/-- The documentation stage (source lines 732-739).  The amending
`store_code_version` call reads the Python local `performance_score_val`;
when the performance stage never assigned it this raises
`UnboundLocalError`, after the documentation report has been stored. -/
def docStage (ag : Agents) (cfg : Config) (i : Nat) (quality_score complexity_score : ℚ)
    (st : LoopState) : StepRes :=
  if cfg.enableDocumentationCheck then
    match st.code with
    | none => { exit := some (.raised "AttributeError"), st := st }
    | some code =>
      let documentation_report := ag.check_documentation code
      let documentation_score_val : ℚ := if pyFalsy documentation_report then 100 else 70
      let storedReport :=
        match documentation_report with
        | none => "Documentation check passed."
        | some r => if r = "" then "Documentation check passed." else r
      let st := { st with trace := st.trace ++
        [Event.storeDocumentationCheck (i + 1) storedReport ag.documentationName] }
      match st.performance_score_val with
      | none => { exit := some (.raised "UnboundLocalError"), st := st }
      | some pv =>
        let st := { st with trace := st.trace ++
          [Event.storeCodeVersion (i + 1) code quality_score complexity_score (some pv)
            (some documentation_score_val)] }
        { exit := none, st := st }
  else { exit := none, st := st }

/-- The refactoring stage (source lines 742-747). -/
def refactorStage (ag : Agents) (cfg : Config) (i : Nat) (st : LoopState) : StepRes :=
  if cfg.enableRefactoring then
    match st.code with
    | none => { exit := some (.raised "AttributeError"), st := st }
    | some code =>
      match ag.refactor_agent code with
      | none => { exit := none, st := st }
      | some s =>
        if s = "" then { exit := none, st := st }
        else
          { exit := none, st := { st with trace := st.trace ++
              [Event.storeRefactoring (i + 1) s ag.refactorName] } }
  else { exit := none, st := st }

/-- The feature-injection stage (source lines 749-753): the generation
result is assigned to `code` unconditionally; a falsy result is only
logged. -/
def featureStage (ag : Agents) (cfg : Config) (feature_request : Option String) (i : Nat)
    (st : LoopState) : StepRes :=
  if (i + 1) = cfg.featureAdditionRound ∧ ¬ pyFalsy feature_request then
    let newCode := ag.generate (feature_request.getD "")
    let st := { st with code := newCode }
    if pyFalsy newCode then
      { exit := none, st := { st with trace := st.trace ++ [Event.logFeatureFailure] } }
    else { exit := none, st := st }
  else { exit := none, st := st }

/-- The sandbox hand-off (source lines 755-761): an unavailable backend
returns `EXIT_DOCKER_UNAVAILABLE`; the execution verdict is only logged
(`run_code_in_docker` catches every exception internally). -/
def sandboxStage (ag : Agents) (st : LoopState) : StepRes :=
  if ag.dockerAvailable then
    { exit := none, st := { st with trace := st.trace ++
        [Event.sandboxRun st.code (ag.runInDocker st.code)] } }
  else { exit := some (.exited EXIT_DOCKER_UNAVAILABLE), st := st }

/-- One iteration of the main loop (source lines 693-761): score and persist
the artifact, run the sub-rounds, then the optional stages, feature
injection and the sandbox hand-off.  A `code` of `None` raises
`AttributeError` inside `calculate_code_quality`. -/
def runIteration (ag : Agents) (cfg : Config) (feature_request : Option String) (i : Nat)
    (st : LoopState) : StepRes :=
  match st.code with
  | none => { exit := some (.raised "AttributeError"), st := st }
  | some code =>
    let quality_score := calculate_code_quality code cfg
    let complexity_score := calculate_cyclomatic_complexity code
    let halstead_volume := calculate_halstead_volume code
    let st := { st with trace := st.trace ++
      [Event.storeCodeVersion (i + 1) code quality_score complexity_score none none,
       Event.storeComplexityMetrics (i + 1) complexity_score halstead_volume] }
    seqStep (seqStep (seqStep (seqStep (seqStep
      (runChecks ag cfg i (List.range cfg.bugChecksPerIteration) st)
      (perfStage ag cfg i quality_score complexity_score))
      (docStage ag cfg i quality_score complexity_score))
      (refactorStage ag cfg i))
      (featureStage ag cfg feature_request i))
      (sandboxStage ag)

/-- The `for i in range(iteration_limit)` loop. -/
def runIterations (ag : Agents) (cfg : Config) (feature_request : Option String) :
    List Nat → LoopState → StepRes
  | [], st => { exit := none, st := st }
  | i :: is, st => seqStep (runIteration ag cfg feature_request i st)
      (runIterations ag cfg feature_request is)

/-- `main(config_file, initial_prompt, feature_request)` after configuration
parsing: generate the initial artifact (a falsy result exits with
`EXIT_FAILURE`), then run the iterations; falling off the loop returns
`EXIT_SUCCESS`.  Returns the outcome together with the final state. -/
def main (ag : Agents) (cfg : Config) (initial_prompt : String)
    (feature_request : Option String) : Outcome × LoopState :=
  let init : LoopState :=
    { code := ag.generate initial_prompt, bug_checker_index := 0, randCtr := 0,
      performance_score_val := none, trace := [] }
  if pyFalsy init.code then (.exited EXIT_FAILURE, init)
  else
    let r := runIterations ag cfg feature_request (List.range cfg.iterationLimit) init
    match r.exit with
    | some o => (o, r.st)
    | none => (.exited EXIT_SUCCESS, r.st)

/-! ## Version-record consistency predicates and concrete scenarios -/

/-- A persisted `code_versions` row is internally consistent when the quality
and complexity scores it stores equal the scoring functions applied to the
artifact text it stores (the property claimed for every `VersionRecord`).
Non-version events are vacuously consistent. -/
def VersionRecordConsistent (cfg : Config) (e : Event) : Prop :=
  ∀ i code q cc p d, e = .storeCodeVersion i code q cc p d →
    q = calculate_code_quality code cfg ∧ cc = calculate_cyclomatic_complexity code

/-- Internal consistency restricted to the version records written at the
start of an iteration, recognizable as the writes whose performance and
documentation fields are both absent (`None`, source line 700). -/
def StartVersionRecordConsistent (cfg : Config) (e : Event) : Prop :=
  ∀ i code q cc, e = .storeCodeVersion i code q cc none none →
    q = calculate_code_quality code cfg ∧ cc = calculate_cyclomatic_complexity code

/-- The `code_versions` rows of a trace, in write order. -/
def versionRecords (tr : List Event) : List (Nat × String × ℚ × ℚ × Option ℚ × Option ℚ) :=
  tr.filterMap fun e =>
    match e with
    | .storeCodeVersion i code q cc p d => some (i, code, q, cc, p, d)
    | _ => none

/-- The artifacts handed to the sandbox boundary, in order. -/
def sandboxHandoffs (tr : List Event) : List (Option String) :=
  tr.filterMap fun e =>
    match e with
    | .sandboxRun c _ => some c
    | _ => none

/-- The persisted documentation-check rows (report, agent name), in order. -/
def docReports (tr : List Event) : List (String × String) :=
  tr.filterMap fun e =>
    match e with
    | .storeDocumentationCheck _ r n => some (r, n)
    | _ => none

/-- The persisted bug-report rows (report, check number, agent, severity). -/
def bugReports (tr : List Event) : List (String × Nat × String × String) :=
  tr.filterMap fun e =>
    match e with
    | .storeBugReport _ r k n s => some (r, k, n, s)
    | _ => none

/-- A two-line artifact used as the generated code in concrete runs. -/
def demoCode : String := "def f():\n    return 1"

/-- An artifact containing a branch: its cyclomatic complexity differs from
`demoCode`. -/
def branchCode : String := "def f(x):\n    if x:\n        return 1\n    return 0"

/-- A detection agent that never reports an issue. -/
def silentChecker : Checker := { name := "D1", check_bugs := fun _ => none }

/-- A detection agent that always returns one Major finding. -/
def reportingChecker : Checker :=
  { name := "D1", check_bugs := fun _ => some "Line 1: Simulated bug. Severity: Major" }

/-- Baseline collaborators: generation succeeds only for the prompt
`"init"`, the single detector is silent, the fixer returns its input
unchanged, optional capabilities report nothing, the sandbox is available
and its verdict is failure. -/
def baseAgents : Agents :=
  { generate := fun p => if p = "init" then some demoCode else none
    bug_check_llms := [silentChecker]
    fix_bugs_agent := fun c _ => some c
    refactor_agent := fun _ => none
    refactorName := "R"
    check_performance := fun _ => none
    performanceName := "P"
    check_documentation := fun _ => none
    documentationName := "Doc"
    randStream := fun _ => 0
    dockerAvailable := true
    runInDocker := fun _ => false }

/-- Configuration with the documentation check enabled and the performance
check disabled (the C3 scenario). -/
def docOnlyCfg : Config :=
  { DEFAULT_CONFIG with
    iterationLimit := 1
    bugChecksPerIteration := 1
    enablePerformanceCheck := false
    enableDocumentationCheck := true
    enableRefactoring := false }

/-- Iteration limit 1, one bug check per iteration, optional stages off
(the C6 scenario configuration). -/
def oneRoundCfg : Config :=
  { DEFAULT_CONFIG with
    iterationLimit := 1
    bugChecksPerIteration := 1
    enablePerformanceCheck := false
    enableDocumentationCheck := false
    enableRefactoring := false }

/-- C6 scenario collaborators: a detector that always returns one Major
finding and a fixer that always returns its input unchanged. -/
def unchangedFixAgents : Agents :=
  { baseAgents with
    generate := fun _ => some demoCode
    bug_check_llms := [reportingChecker]
    runInDocker := fun _ => true }

/-- Like `unchangedFixAgents` but the fix call returns no artifact at all. -/
def fixNoneAgents : Agents :=
  { unchangedFixAgents with fix_bugs_agent := fun _ _ => none }

/-- Collaborators whose fix call replaces the artifact with `branchCode`,
changing its complexity score mid-iteration. -/
def changingFixAgents : Agents :=
  { unchangedFixAgents with fix_bugs_agent := fun _ _ => some branchCode }

/-- Iteration limit 1, one bug check, performance stage enabled (so the
amending version record of source line 727 is written). -/
def perfOnlyCfg : Config :=
  { DEFAULT_CONFIG with
    iterationLimit := 1
    bugChecksPerIteration := 1
    enablePerformanceCheck := true
    enableDocumentationCheck := false
    enableRefactoring := false }

/-- The 3-line artifact of the quality-score scenario: one 90-character
line, no leading doc-comment and no inline comment. -/
def c8Artifact : String :=
  "def f(x):\n" ++ String.mk (List.replicate 90 'a') ++ "\nreturn x"

/-- A concrete loop state used to instantiate the sub-round theorems. -/
def probeState : LoopState :=
  { code := some demoCode, bug_checker_index := 0, randCtr := 0,
    performance_score_val := none, trace := [] }

/-! ## Theorems -/

/-- Helper: one round-robin selection advances the cursor before use. -/
theorem get_next_bug_checker_round_robin {α : Type} (l : List α) (h : l ≠ []) (c r : Nat) :
    get_next_bug_checker l LLM_ROTATION_ROUND_ROBIN c r =
      some (l.getD ((c + 1) % l.length) (l.head h), (c + 1) % l.length) := by
  match l, h with
  | l0 :: ls, _ =>
    simp [get_next_bug_checker, LLM_ROTATION_ROUND_ROBIN, LLM_ROTATION_FIXED,
      LLM_ROTATION_RANDOM]

/-- Helper: closed form of the `k`-th round-robin selection. -/
theorem selectIter_round_robin {α : Type} (l : List α) (h : l ≠ []) (c k : Nat) :
    selectIter l LLM_ROTATION_ROUND_ROBIN c k =
      some (l.getD ((c + k + 1) % l.length) (l.head h), (c + k + 1) % l.length) := by
  induction k generalizing c with
  | zero => simpa using get_next_bug_checker_round_robin l h c 0
  | succ k ih =>
    rw [selectIter, get_next_bug_checker_round_robin l h c 0]
    dsimp only
    rw [ih ((c + 1) % l.length)]
    have he : ((c + 1) % l.length + k + 1) % l.length = (c + (k + 1) + 1) % l.length := by
      rw [Nat.add_assoc, Nat.mod_add_mod]
      congr 1
      omega
    rw [he]

/-- Helper: the first `N` round-robin selections from a fresh cursor are the
pool rotated by one. -/
theorem selections_round_robin_eq_rotate {α : Type} (l : List α) (h : l ≠ []) :
    selections l LLM_ROTATION_ROUND_ROBIN 0 l.length = (l.rotate 1).map some := by
  have hlen : 0 < l.length := List.length_pos.mpr h
  apply List.ext_getElem
  · simp [selections]
  · intro n h1 h2
    simp only [selections, List.getElem_map, List.getElem_range]
    rw [selectIter_round_robin l h 0 n]
    simp only [Option.map_some']
    have hlt : (0 + n + 1) % l.length < l.length := Nat.mod_lt _ hlen
    rw [List.getD_eq_getElem _ _ hlt, List.getElem_rotate]
    simp only [Nat.zero_add]

/-- C5: under `round_robin`, `selectNext` advances the cursor to
`(cursor + 1) mod len(pool)` and returns the pool entry at the new cursor;
iterated from a fresh cursor the selections are periodic with period `N`,
the first `N` selections are a permutation of the pool starting at
`pool[1]` when `N > 1`, and on the pool `[D1, D2]` the first three calls
return `D2`, `D1`, `D2`. -/
theorem c5_round_robin_rotation :
    (∀ (α : Type) (l : List α) (h : l ≠ []) (c k : Nat),
        selectIter l LLM_ROTATION_ROUND_ROBIN c k =
          some (l.getD ((c + k + 1) % l.length) (l.head h), (c + k + 1) % l.length)) ∧
    (∀ (α : Type) (l : List α), l ≠ [] → ∀ c k : Nat,
        selectIter l LLM_ROTATION_ROUND_ROBIN c (k + l.length) =
          selectIter l LLM_ROTATION_ROUND_ROBIN c k) ∧
    (∀ (α : Type) (l : List α), l ≠ [] →
        (selections l LLM_ROTATION_ROUND_ROBIN 0 l.length).Perm (l.map some)) ∧
    (∀ (α : Type) (l : List α) (d : α), 1 < l.length →
        (selections l LLM_ROTATION_ROUND_ROBIN 0 l.length).getD 0 none =
          some (l.getD 1 d)) ∧
    selections ["D1", "D2"] LLM_ROTATION_ROUND_ROBIN 0 3 =
      [some "D2", some "D1", some "D2"] := by
  refine ⟨fun α l h c k => selectIter_round_robin l h c k, ?_, ?_, ?_, by decide⟩
  · intro α l h c k
    rw [selectIter_round_robin l h c (k + l.length), selectIter_round_robin l h c k]
    have he : c + (k + l.length) + 1 = (c + k + 1) + l.length := by omega
    rw [he, Nat.add_mod_right]
  · intro α l h
    rw [selections_round_robin_eq_rotate l h]
    exact (l.rotate_perm 1).map some
  · intro α l d h
    have hne : l ≠ [] := by
      intro hnil
      rw [hnil] at h
      simp at h
    rw [selections_round_robin_eq_rotate l hne]
    have hlen : 0 < ((l.rotate 1).map some).length := by
      simp only [List.length_map, List.length_rotate]
      omega
    rw [List.getD_eq_getElem _ _ hlen, List.getElem_map, List.getElem_rotate]
    rw [List.getD_eq_getElem _ _ (by omega : 1 < l.length)]
    have hm : 1 % l.length = 1 := Nat.mod_eq_of_lt h
    simp only [Nat.zero_add, hm]

/-- Witness for C5: the first round-robin call on a two-element pool from
cursor 0 returns the element at index 1 together with the new cursor 1. -/
theorem c5_round_robin_rotation_witness :
    (["x", "y"] : List String) ≠ [] ∧
    selectIter ["x", "y"] LLM_ROTATION_ROUND_ROBIN 0 0 = some ("y", 1) := by
  refine ⟨by decide, ?_⟩
  rw [c5_round_robin_rotation.1 String ["x", "y"] (by decide) 0 0]
  decide

/-- C7: for every artifact text (including the empty text) and every parsed
configuration, `calculate_code_quality` is defined (a total function in this
embedding), lies in `[0, 100]`, and depends only on its two arguments. -/
theorem c7_quality_total_bounded_deterministic :
    (∀ (code : String) (config : Config),
        0 ≤ calculate_code_quality code config ∧
          calculate_code_quality code config ≤ 100) ∧
    (∀ (c₁ c₂ : String) (k₁ k₂ : Config), c₁ = c₂ → k₁ = k₂ →
        calculate_code_quality c₁ k₁ = calculate_code_quality c₂ k₂) := by
  have hmax_lb : ∀ x : ℚ, 0 ≤ pyMax 0 x := by
    intro x
    unfold pyMax
    split <;> simp_all
  have hmin_ub : ∀ x : ℚ, pyMin x 100 ≤ 100 := by
    intro x
    unfold pyMin
    split <;> simp_all
  have hmax_ub : ∀ x : ℚ, x ≤ 100 → pyMax 0 x ≤ 100 := by
    intro x hx
    unfold pyMax
    split <;> norm_num [hx]
  constructor
  · intro code config
    constructor
    · exact hmax_lb _
    · exact hmax_ub _ (hmin_ub _)
  · rintro c₁ c₂ k₁ k₂ rfl rfl
    rfl

/-- Witness for C7 at the empty artifact and the default configuration. -/
theorem c7_quality_total_bounded_deterministic_witness :
    (0 ≤ calculate_code_quality "" DEFAULT_CONFIG ∧
      calculate_code_quality "" DEFAULT_CONFIG ≤ 100) ∧
    calculate_code_quality "" DEFAULT_CONFIG = calculate_code_quality "" DEFAULT_CONFIG :=
  ⟨c7_quality_total_bounded_deterministic.1 "" DEFAULT_CONFIG,
   c7_quality_total_bounded_deterministic.2 "" "" DEFAULT_CONFIG DEFAULT_CONFIG rfl rfl⟩

/-- C8: with the default penalties, the 3-line artifact with one
90-character line, no leading doc-comment and no inline comment scores
`100 - 0.5 - 2.0 - 1.0 = 96.5`. -/
theorem c8_quality_default_penalties_scenario :
    (pySplitlines c8Artifact).length = 3 ∧
    ((pySplitlines c8Artifact).filter fun l => 80 < l.data.length).length = 1 ∧
    calculate_code_quality c8Artifact DEFAULT_CONFIG = 100 - 1 / 2 - 2 - 1 ∧
    calculate_code_quality c8Artifact DEFAULT_CONFIG = 193 / 2 := by
  have h3 : calculate_code_quality c8Artifact DEFAULT_CONFIG = 100 - 1 / 2 - 2 - 1 := by
    have hsplit : pySplitlines c8Artifact =
        ["def f(x):", String.mk (List.replicate 90 'a'), "return x"] := rfl
    have hb : (String.mk (List.replicate 90 'a')).data.length = 90 := rfl
    have hfst : ("def f(x):" : String).data.length = 9 := rfl
    have hlst : ("return x" : String).data.length = 8 := rfl
    have hds : pyStartswith (pyStrip (String.mk (List.replicate 90 'a'))) "\"\"\"" = false := rfl
    have hget : (["def f(x):", String.mk (List.replicate 90 'a'), "return x"] :
        List String).getD 1 "" = String.mk (List.replicate 90 'a') := rfl
    have hcm : ((["def f(x):", String.mk (List.replicate 90 'a'), "return x"] :
        List String).any fun line => pyContains line "#") = false := rfl
    simp only [calculate_code_quality, hsplit, List.foldl_cons, List.foldl_nil,
      List.length_cons, List.length_nil, hget, hfst, hb, hlst, hds, hcm]
    norm_num [pyMax, pyMin, DEFAULT_CONFIG, CODE_QUALITY_INITIAL_SCORE]
  refine ⟨by decide, by decide, h3, by rw [h3]; norm_num⟩

/-- C10: applying `fix_bugs` with an empty issue report returns the input
artifact unchanged, for every artifact text, every simulated failure draw
and every shuffle of the (empty) findings list. -/
theorem c10_fix_empty_report_identity (code : String) (failureRoll : Bool)
    (shuffled : List String) (hp : shuffled.Perm (pySplitlines "")) :
    fix_bugs code "" failureRoll shuffled = .ok code := by
  have h0 : pySplitlines "" = [] := rfl
  rw [h0] at hp
  have hs : shuffled = [] := hp.eq_nil
  subst hs
  cases failureRoll <;> rfl

/-- Witness for C10 at a concrete artifact. -/
theorem c10_fix_empty_report_identity_witness :
    ([] : List String).Perm (pySplitlines "") ∧
    fix_bugs "print(1)" "" false [] = .ok "print(1)" :=
  ⟨by decide, c10_fix_empty_report_identity "print(1)" false [] (by decide)⟩

/-- C4 (refuted by the code): the claim says `fix_bugs` never raises for
any artifact and any report, but for a report whose finding mentions
`FileNotFoundError` against code without a `try:` line, the `next(...)`
call at source line 347 raises `StopIteration`; evaluated here on the
concrete failing input (the shuffle of a one-line report is that report). -/
theorem c4_fix_bugs_raises_on_missing_try :
    (["Line 1: FileNotFoundError missing"] : List String).Perm
      (pySplitlines "Line 1: FileNotFoundError missing") ∧
    fix_bugs "x = 1" "Line 1: FileNotFoundError missing" false
      ["Line 1: FileNotFoundError missing"] = .error .stopIteration := by
  refine ⟨by decide, by rfl⟩

/-- C9: a sub-round whose detection call returns a falsy report (`None` or
the empty string) changes only the rotation cursor and the randomness
position: the artifact is untouched, no issue report is persisted and no
fix call is recorded. -/
theorem c9_empty_report_triggers_nothing (ag : Agents) (cfg : Config) (i k : Nat)
    (st : LoopState) (ch : Checker) (idx : Nat) (c : String)
    (hsel : get_next_bug_checker ag.bug_check_llms cfg.llmRotationStrategy
      st.bug_checker_index (ag.randStream st.randCtr) = some (ch, idx))
    (hcode : st.code = some c)
    (hrep : ch.check_bugs c = none ∨ ch.check_bugs c = some "") :
    runSubRound ag cfg i k st =
      { exit := none,
        st := { st with bug_checker_index := idx, randCtr := st.randCtr + 1 } } ∧
    (runSubRound ag cfg i k st).st.trace = st.trace ∧
    (runSubRound ag cfg i k st).st.code = st.code := by
  have hmain : runSubRound ag cfg i k st =
      { exit := none,
        st := { st with bug_checker_index := idx, randCtr := st.randCtr + 1 } } := by
    unfold runSubRound
    rw [hsel]
    rcases hrep with h | h <;> simp [hcode, h]
  exact ⟨hmain, by rw [hmain], by rw [hmain]⟩

/-- Witness for C9: the silent detector over the baseline agents leaves the
probe state unchanged apart from cursor and randomness position. -/
theorem c9_empty_report_triggers_nothing_witness :
    silentChecker.check_bugs demoCode = none ∧
    (runSubRound baseAgents DEFAULT_CONFIG 0 0 probeState =
      { exit := none,
        st := { probeState with bug_checker_index := 0, randCtr := probeState.randCtr + 1 } } ∧
    (runSubRound baseAgents DEFAULT_CONFIG 0 0 probeState).st.trace = probeState.trace ∧
    (runSubRound baseAgents DEFAULT_CONFIG 0 0 probeState).st.code = probeState.code) :=
  ⟨rfl, c9_empty_report_triggers_nothing baseAgents DEFAULT_CONFIG 0 0 probeState
    silentChecker 0 demoCode rfl rfl (Or.inl rfl)⟩

/-- C6: a fix call returning no artifact at all aborts the run with
`EXIT_FAILURE`; a fix call returning the (non-empty) artifact unchanged is
recoverable and the iteration continues on that artifact; in the concrete
scenario (iteration limit 1, one bug check, a detector always reporting one
Major finding, a fixer always returning its input) the run exits
successfully with the final artifact equal to the artifact that entered the
sub-round, while the same scenario with a fixer returning `None` exits with
`EXIT_FAILURE`. -/
theorem c6_fix_failure_semantics :
    (∀ (ag : Agents) (cfg : Config) (i k : Nat) (st : LoopState) (ch : Checker)
        (idx : Nat) (c r : String),
      get_next_bug_checker ag.bug_check_llms cfg.llmRotationStrategy st.bug_checker_index
          (ag.randStream st.randCtr) = some (ch, idx) →
      st.code = some c → ch.check_bugs c = some r → r ≠ "" →
      ag.fix_bugs_agent c r = none →
      runSubRound ag cfg i k st =
        { exit := some (.exited EXIT_FAILURE)
          st := { st with
                  bug_checker_index := idx
                  randCtr := st.randCtr + 1
                  code := none
                  trace := st.trace ++
                    [Event.storeBugReport (i + 1) r (k + 1) ch.name (parseSeverity r),
                     Event.fixCall (i + 1) (k + 1) c r] } }) ∧
    (∀ (ag : Agents) (cfg : Config) (i k : Nat) (st : LoopState) (ch : Checker)
        (idx : Nat) (c r : String),
      get_next_bug_checker ag.bug_check_llms cfg.llmRotationStrategy st.bug_checker_index
          (ag.randStream st.randCtr) = some (ch, idx) →
      st.code = some c → ch.check_bugs c = some r → r ≠ "" →
      ag.fix_bugs_agent c r = some c → c ≠ "" →
      runSubRound ag cfg i k st =
        { exit := none
          st := { st with
                  bug_checker_index := idx
                  randCtr := st.randCtr + 1
                  code := some c
                  trace := st.trace ++
                    [Event.storeBugReport (i + 1) r (k + 1) ch.name (parseSeverity r),
                     Event.fixCall (i + 1) (k + 1) c r] } }) ∧
    ((main unchangedFixAgents oneRoundCfg "p" none).1 = .exited EXIT_SUCCESS ∧
      (main unchangedFixAgents oneRoundCfg "p" none).2.code = some demoCode ∧
      bugReports (main unchangedFixAgents oneRoundCfg "p" none).2.trace =
        [("Line 1: Simulated bug. Severity: Major", 1, "D1", "Major")]) ∧
    (main fixNoneAgents oneRoundCfg "p" none).1 = .exited EXIT_FAILURE := by
  refine ⟨?_, ?_, ⟨rfl, rfl, rfl⟩, rfl⟩
  · intro ag cfg i k st ch idx c r hsel hcode hrep hr hfix
    unfold runSubRound
    rw [hsel]
    simp [hcode, hrep, hr, hfix, pyFalsy]
  · intro ag cfg i k st ch idx c r hsel hcode hrep hr hfix hc
    unfold runSubRound
    rw [hsel]
    simp [hcode, hrep, hr, hfix, pyFalsy, hc]

/-- Witness for C6: the fatal branch evaluated on the concrete scenario. -/
theorem c6_fix_failure_semantics_witness :
    ("Line 1: Simulated bug. Severity: Major" : String) ≠ "" ∧
    runSubRound fixNoneAgents oneRoundCfg 0 0 probeState =
      { exit := some (.exited EXIT_FAILURE)
        st := { probeState with
                bug_checker_index := 0
                randCtr := probeState.randCtr + 1
                code := none
                trace := probeState.trace ++
                  [Event.storeBugReport 1 "Line 1: Simulated bug. Severity: Major" 1
                    reportingChecker.name
                    (parseSeverity "Line 1: Simulated bug. Severity: Major"),
                   Event.fixCall 1 1 demoCode "Line 1: Simulated bug. Severity: Major"] } } :=
  ⟨by decide, c6_fix_failure_semantics.1 fixNoneAgents oneRoundCfg 0 0 probeState
    reportingChecker 0 demoCode "Line 1: Simulated bug. Severity: Major" rfl rfl rfl
    (by decide) rfl⟩

/-- C1 (refuted by the code): when the feature-injection generation call
returns no artifact, `main` overwrites the `code` variable with that `None`
result instead of keeping the previous artifact: the sandbox hand-off of
that iteration receives `None`, and the next iteration raises
`AttributeError` inside `calculate_code_quality`.  Evaluated on the default
configuration with a feature request whose generation fails. -/
theorem c1_feature_failure_overwrites_artifact :
    (main baseAgents DEFAULT_CONFIG "init" (some "feat")).1 = .raised "AttributeError" ∧
    (main baseAgents DEFAULT_CONFIG "init" (some "feat")).2.code = none ∧
    sandboxHandoffs (main baseAgents DEFAULT_CONFIG "init" (some "feat")).2.trace =
      [some demoCode, none] :=
  ⟨rfl, rfl, rfl⟩

/-- C3 (refuted by the code): with the performance check disabled and the
documentation check enabled, the documentation stage stores its report and
then raises `UnboundLocalError` at the amending `store_code_version` call,
because `performance_score_val` was never assigned; the iteration does not
complete. -/
theorem c3_doc_stage_without_perf_raises :
    (main baseAgents docOnlyCfg "init" none).1 = .raised "UnboundLocalError" ∧
    docReports (main baseAgents docOnlyCfg "init" none).2.trace =
      [("Documentation check passed.", "Doc")] :=
  ⟨rfl, rfl⟩

/-- Counterexample for C2: in a run whose fix call replaces the artifact,
the amending version record written by the performance stage stores the
fixed artifact together with the scores computed from the iteration-start
artifact, so not every persisted version record is internally consistent. -/
theorem c2_counterexample_version_record_inconsistent :
    ¬ ∀ e ∈ (main changingFixAgents perfOnlyCfg "p" none).2.trace,
        VersionRecordConsistent perfOnlyCfg e := by
  intro h
  have hmem : Event.storeCodeVersion 1 branchCode
      (calculate_code_quality demoCode perfOnlyCfg)
      (calculate_cyclomatic_complexity demoCode) (some 100) none
      ∈ (main changingFixAgents perfOnlyCfg "p" none).2.trace := by
    have ht : (main changingFixAgents perfOnlyCfg "p" none).2.trace =
        [Event.storeCodeVersion 1 demoCode (calculate_code_quality demoCode perfOnlyCfg)
           (calculate_cyclomatic_complexity demoCode) none none,
         Event.storeComplexityMetrics 1 (calculate_cyclomatic_complexity demoCode)
           (calculate_halstead_volume demoCode),
         Event.storeBugReport 1 "Line 1: Simulated bug. Severity: Major" 1 "D1" "Major",
         Event.fixCall 1 1 demoCode "Line 1: Simulated bug. Severity: Major",
         Event.storePerformanceCheck 1 "No performance issues detected." "P",
         Event.storeCodeVersion 1 branchCode (calculate_code_quality demoCode perfOnlyCfg)
           (calculate_cyclomatic_complexity demoCode) (some 100) none,
         Event.sandboxRun (some branchCode) true] := rfl
    rw [ht]
    exact List.mem_cons_of_mem _ (List.mem_cons_of_mem _ (List.mem_cons_of_mem _
      (List.mem_cons_of_mem _ (List.mem_cons_of_mem _ (List.mem_cons_self _ _)))))
  have hcons := h _ hmem 1 branchCode
    (calculate_code_quality demoCode perfOnlyCfg)
    (calculate_cyclomatic_complexity demoCode) (some 100) none rfl
  have hcc : calculate_cyclomatic_complexity demoCode =
      calculate_cyclomatic_complexity branchCode := hcons.2
  have hd : calculate_cyclomatic_complexity demoCode = 1 := by
    simp only [calculate_cyclomatic_complexity,
      show pyCount demoCode "if " = 0 from rfl,
      show pyCount demoCode "for " = 0 from rfl,
      show pyCount demoCode "while " = 0 from rfl]
    norm_num
  have hbr : calculate_cyclomatic_complexity branchCode = 2 := by
    simp only [calculate_cyclomatic_complexity,
      show pyCount branchCode "if " = 1 from rfl,
      show pyCount branchCode "for " = 0 from rfl,
      show pyCount branchCode "while " = 0 from rfl]
    norm_num
  rw [hd, hbr] at hcc
  norm_num at hcc

/-- Helper: consistency of a trace is preserved under append. -/
theorem startConsistent_append (cfg : Config) (t1 t2 : List Event)
    (h1 : ∀ e ∈ t1, StartVersionRecordConsistent cfg e)
    (h2 : ∀ e ∈ t2, StartVersionRecordConsistent cfg e) :
    ∀ e ∈ t1 ++ t2, StartVersionRecordConsistent cfg e := by
  intro e he
  rcases List.mem_append.mp he with h | h
  exacts [h1 e h, h2 e h]

/-- Helper: the events appended by a sub-round keep traces consistent. -/
theorem runSubRound_startConsistent (ag : Agents) (cfg : Config) (i k : Nat) (st : LoopState)
    (h : ∀ e ∈ st.trace, StartVersionRecordConsistent cfg e) :
    ∀ e ∈ (runSubRound ag cfg i k st).st.trace, StartVersionRecordConsistent cfg e := by
  simp only [runSubRound]
  split
  · exact h
  · split
    · exact h
    · split
      · exact h
      · split
        · exact h
        · split
          all_goals
            refine startConsistent_append cfg st.trace _ h ?_
            intro e he
            cases he with
            | head => exact fun _ _ _ _ heq => nomatch heq
            | tail _ he2 =>
              cases he2 with
              | head => exact fun _ _ _ _ heq => nomatch heq
              | tail _ he3 => cases he3

/-- Helper: `seqStep` preserves trace consistency. -/
theorem seqStep_startConsistent (cfg : Config) (r : StepRes) (f : LoopState → StepRes)
    (hr : ∀ e ∈ r.st.trace, StartVersionRecordConsistent cfg e)
    (hf : ∀ st', (∀ e ∈ st'.trace, StartVersionRecordConsistent cfg e) →
      ∀ e ∈ (f st').st.trace, StartVersionRecordConsistent cfg e) :
    ∀ e ∈ (seqStep r f).st.trace, StartVersionRecordConsistent cfg e := by
  unfold seqStep
  split
  · exact hr
  · exact hf _ hr

/-- Helper: the bug-check loop preserves trace consistency. -/
theorem runChecks_startConsistent (ag : Agents) (cfg : Config) (i : Nat) (ks : List Nat) :
    ∀ st : LoopState, (∀ e ∈ st.trace, StartVersionRecordConsistent cfg e) →
      ∀ e ∈ (runChecks ag cfg i ks st).st.trace, StartVersionRecordConsistent cfg e := by
  induction ks with
  | nil => exact fun st h => h
  | cons k ks ih =>
    intro st h
    exact seqStep_startConsistent cfg _ _ (runSubRound_startConsistent ag cfg i k st h) ih

/-- Helper: the performance stage preserves trace consistency (its version
record carries a present performance field). -/
theorem perfStage_startConsistent (ag : Agents) (cfg : Config) (i : Nat) (q cc : ℚ)
    (st : LoopState) (h : ∀ e ∈ st.trace, StartVersionRecordConsistent cfg e) :
    ∀ e ∈ (perfStage ag cfg i q cc st).st.trace, StartVersionRecordConsistent cfg e := by
  simp only [perfStage]
  split
  · split
    · exact h
    · refine startConsistent_append cfg st.trace _ h ?_
      intro e he
      cases he with
      | head => exact fun _ _ _ _ heq => nomatch heq
      | tail _ he2 =>
        cases he2 with
        | head => exact fun _ _ _ _ heq => nomatch heq
        | tail _ he3 => cases he3
  · exact h

/-- Helper: the documentation stage preserves trace consistency. -/
theorem docStage_startConsistent (ag : Agents) (cfg : Config) (i : Nat) (q cc : ℚ)
    (st : LoopState) (h : ∀ e ∈ st.trace, StartVersionRecordConsistent cfg e) :
    ∀ e ∈ (docStage ag cfg i q cc st).st.trace, StartVersionRecordConsistent cfg e := by
  have hdoc : ∀ t : List Event, (∀ e ∈ t, StartVersionRecordConsistent cfg e) →
      ∀ (j : Nat) (rep nm : String),
      ∀ e ∈ t ++ [Event.storeDocumentationCheck j rep nm],
        StartVersionRecordConsistent cfg e := by
    intro t ht j rep nm
    refine startConsistent_append cfg t _ ht ?_
    intro e he
    cases he with
    | head => exact fun _ _ _ _ heq => nomatch heq
    | tail _ he2 => cases he2
  simp only [docStage]
  split
  · split
    · exact h
    · split
      · exact hdoc st.trace h _ _ _
      · refine startConsistent_append cfg _ _ (hdoc st.trace h _ _ _) ?_
        intro e he
        cases he with
        | head => exact fun _ _ _ _ heq => nomatch heq
        | tail _ he2 => cases he2
  · exact h

/-- Helper: the refactoring stage preserves trace consistency. -/
theorem refactorStage_startConsistent (ag : Agents) (cfg : Config) (i : Nat)
    (st : LoopState) (h : ∀ e ∈ st.trace, StartVersionRecordConsistent cfg e) :
    ∀ e ∈ (refactorStage ag cfg i st).st.trace, StartVersionRecordConsistent cfg e := by
  simp only [refactorStage]
  split
  · split
    · exact h
    · split
      · exact h
      · split
        · exact h
        · refine startConsistent_append cfg st.trace _ h ?_
          intro e he
          cases he with
          | head => exact fun _ _ _ _ heq => nomatch heq
          | tail _ he2 => cases he2
  · exact h

/-- Helper: the feature-injection stage preserves trace consistency. -/
theorem featureStage_startConsistent (ag : Agents) (cfg : Config)
    (fr : Option String) (i : Nat) (st : LoopState)
    (h : ∀ e ∈ st.trace, StartVersionRecordConsistent cfg e) :
    ∀ e ∈ (featureStage ag cfg fr i st).st.trace, StartVersionRecordConsistent cfg e := by
  simp only [featureStage]
  split
  · split
    · refine startConsistent_append cfg st.trace _ h ?_
      intro e he
      cases he with
      | head => exact fun _ _ _ _ heq => nomatch heq
      | tail _ he2 => cases he2
    · exact h
  · exact h

/-- Helper: the sandbox hand-off preserves trace consistency. -/
theorem sandboxStage_startConsistent (ag : Agents) (cfg : Config) (st : LoopState)
    (h : ∀ e ∈ st.trace, StartVersionRecordConsistent cfg e) :
    ∀ e ∈ (sandboxStage ag st).st.trace, StartVersionRecordConsistent cfg e := by
  simp only [sandboxStage]
  split
  · refine startConsistent_append cfg st.trace _ h ?_
    intro e he
    cases he with
    | head => exact fun _ _ _ _ heq => nomatch heq
    | tail _ he2 => cases he2
  · exact h

/-- Helper: one full iteration preserves trace consistency; the version
record it writes at iteration start is consistent by construction. -/
theorem runIteration_startConsistent (ag : Agents) (cfg : Config)
    (fr : Option String) (i : Nat) (st : LoopState)
    (h : ∀ e ∈ st.trace, StartVersionRecordConsistent cfg e) :
    ∀ e ∈ (runIteration ag cfg fr i st).st.trace, StartVersionRecordConsistent cfg e := by
  simp only [runIteration]
  split
  · exact h
  · next code heq =>
    have hstart : ∀ e ∈ st.trace ++
        [Event.storeCodeVersion (i + 1) code (calculate_code_quality code cfg)
          (calculate_cyclomatic_complexity code) none none,
         Event.storeComplexityMetrics (i + 1) (calculate_cyclomatic_complexity code)
          (calculate_halstead_volume code)],
        StartVersionRecordConsistent cfg e := by
      refine startConsistent_append cfg st.trace _ h ?_
      intro e he
      cases he with
      | head =>
        intro i' code' q' cc' heq2
        injection heq2 with h1 h2 h3 h4 h5 h6
        subst h2
        subst h3
        subst h4
        exact ⟨rfl, rfl⟩
      | tail _ he2 =>
        cases he2 with
        | head => exact fun _ _ _ _ heq2 => nomatch heq2
        | tail _ he3 => cases he3
    refine seqStep_startConsistent cfg _ _ ?_ (fun st' h' => sandboxStage_startConsistent ag cfg st' h')
    refine seqStep_startConsistent cfg _ _ ?_ (fun st' h' => featureStage_startConsistent ag cfg fr i st' h')
    refine seqStep_startConsistent cfg _ _ ?_ (fun st' h' => refactorStage_startConsistent ag cfg i st' h')
    refine seqStep_startConsistent cfg _ _ ?_ (fun st' h' => docStage_startConsistent ag cfg i _ _ st' h')
    refine seqStep_startConsistent cfg _ _ ?_ (fun st' h' => perfStage_startConsistent ag cfg i _ _ st' h')
    exact runChecks_startConsistent ag cfg i _ _ hstart

/-- Helper: the iteration loop preserves trace consistency. -/
theorem runIterations_startConsistent (ag : Agents) (cfg : Config)
    (fr : Option String) (is : List Nat) :
    ∀ st : LoopState, (∀ e ∈ st.trace, StartVersionRecordConsistent cfg e) →
      ∀ e ∈ (runIterations ag cfg fr is st).st.trace, StartVersionRecordConsistent cfg e := by
  induction is with
  | nil => exact fun st h => h
  | cons i is ih =>
    intro st h
    exact seqStep_startConsistent cfg _ _ (runIteration_startConsistent ag cfg fr i st h) ih

/-- C2 (amended): in every run, every version record written at the start of
an iteration — the writes whose performance and documentation fields are both
absent — is internally consistent: its stored quality and complexity scores
equal the scoring functions applied to the artifact text stored in that same
record. -/
theorem c2_start_version_records_consistent (ag : Agents) (cfg : Config)
    (initial_prompt : String) (feature_request : Option String) :
    ∀ e ∈ (main ag cfg initial_prompt feature_request).2.trace,
      StartVersionRecordConsistent cfg e := by
  simp only [main]
  split
  · exact fun e he => nomatch he
  · split
    · exact runIterations_startConsistent ag cfg feature_request
        (List.range cfg.iterationLimit)
        { code := ag.generate initial_prompt, bug_checker_index := 0, randCtr := 0,
          performance_score_val := none, trace := [] } (fun e he => nomatch he)
    · exact runIterations_startConsistent ag cfg feature_request
        (List.range cfg.iterationLimit)
        { code := ag.generate initial_prompt, bug_checker_index := 0, randCtr := 0,
          performance_score_val := none, trace := [] } (fun e he => nomatch he)

/-- Witness for the amended C2: the iteration-start version record of the
concrete one-round run is consistent. -/
theorem c2_start_version_records_consistent_witness :
    StartVersionRecordConsistent oneRoundCfg
      (Event.storeCodeVersion 1 demoCode (calculate_code_quality demoCode oneRoundCfg)
        (calculate_cyclomatic_complexity demoCode) none none) :=
  c2_start_version_records_consistent unchangedFixAgents oneRoundCfg "p" none
    (Event.storeCodeVersion 1 demoCode (calculate_code_quality demoCode oneRoundCfg)
      (calculate_cyclomatic_complexity demoCode) none none)
    (by
      have ht : (main unchangedFixAgents oneRoundCfg "p" none).2.trace =
          [Event.storeCodeVersion 1 demoCode (calculate_code_quality demoCode oneRoundCfg)
             (calculate_cyclomatic_complexity demoCode) none none,
           Event.storeComplexityMetrics 1 (calculate_cyclomatic_complexity demoCode)
             (calculate_halstead_volume demoCode),
           Event.storeBugReport 1 "Line 1: Simulated bug. Severity: Major" 1 "D1" "Major",
           Event.fixCall 1 1 demoCode "Line 1: Simulated bug. Severity: Major",
           Event.sandboxRun (some demoCode) true] := rfl
      rw [ht]
      exact List.mem_cons_self _ _)

end ABF
